import Mathlib

/-!
Backend selection, state classification and status update of the GCP infrastructure actuator.

A shallow embedding of `pkg/controller/infrastructure/actuator.go`.

Conventions of the embedding:

* a Go pointer that may be nil is an `Option`; the receivers `infra` and `cluster` themselves
  are taken to be non-nil (the Go code dereferences them unconditionally);
* a Go `map[string]string` is an optional association list, `none` being the nil map;
  reading a missing key (or a nil map) yields the empty string, as in Go;
* a Go result pair `(T, error)` is a Lean pair whose second component is `none` for `nil`;
* calls into packages that are not part of the modelled file (the JSON codec, the flow-state
  helpers of package `infraflow`, the client, the Terraformer) and the constants of package
  `gcp` are fields of an environment record.
-/

set_option autoImplicit false

namespace ProviderGcp

/-! ## Basic carriers -/

/-- A Go byte slice. -/
abbrev Bytes := List UInt8

/-- A Go error value, carried by its message. -/
abbrev GoError := String

/-- A Go string map; `none` is the nil map. -/
abbrev GoMap := Option (List (String × String))

/-- Go map read `m[key]`: the zero value (empty string) on a nil map or a missing key. -/
def mapIndex (m : GoMap) (key : String) : String :=
  match m with
  | none => ""
  | some kvs => (kvs.lookup key).getD ""

/-! ## strings.EqualFold -/

/-- One step of the comparison loop of `strings.EqualFold`: the runes are equal, or the
smaller one is an upper-case ASCII letter and the larger one is its lower-case form.
Runes outside ASCII are only matched by equality; the letters of the pattern "true",
the only second argument used by the actuator, have no other simple-fold partners. -/
def foldPair (sr tr : Char) : Bool :=
  if tr = sr then true
  else
    let lo := if tr < sr then tr else sr
    let hi := if tr < sr then sr else tr
    decide ('A' ≤ lo) && decide (lo ≤ 'Z') && decide (hi.toNat = lo.toNat + ('a'.toNat - 'A'.toNat))

/-- The loop of `strings.EqualFold` over the runes of both strings. -/
def EqualFoldRunes : List Char → List Char → Bool
  | [], [] => true
  | sr :: s, tr :: t => foldPair sr tr && EqualFoldRunes s t
  | _, _ => false

/-- Model of `strings.EqualFold(s, t)`. -/
def EqualFold (s t : String) : Bool :=
  EqualFoldRunes s.data t.data

/-! ## Kubernetes objects -/

/-- A `runtime.Object` stored in a `RawExtension`. The concrete object types are declared
outside the modelled file; an object is carried by a name that identifies it. -/
structure RuntimeObject where
  name : String
deriving DecidableEq, Repr

/-- The type `runtime.RawExtension`: raw JSON bytes (`none` is the nil slice) and an
optional typed object. -/
structure RawExtension where
  Raw : Option Bytes
  Object : Option RuntimeObject
deriving DecidableEq, Repr

/-- The status of an `extensionsv1alpha1.Infrastructure` (the fields the actuator touches). -/
structure InfrastructureStatus where
  ProviderStatus : Option RawExtension
  State : Option RawExtension
deriving DecidableEq, Repr

/-- The object `extensionsv1alpha1.Infrastructure` (the fields the actuator touches). -/
structure Infrastructure where
  Annotations : GoMap
  Status : InfrastructureStatus
deriving DecidableEq, Repr

/-- The shoot of a cluster. -/
structure Shoot where
  Annotations : GoMap
deriving DecidableEq, Repr

/-- The seed of a cluster. -/
structure Seed where
  Annotations : GoMap
  Labels : GoMap
deriving DecidableEq, Repr

/-- The type `extensionscontroller.Cluster`; `Shoot` and `Seed` are pointers. -/
structure Cluster where
  Shoot : Option Shoot
  Seed : Option Seed
deriving DecidableEq, Repr

/-- The type `schema.GroupVersion`. -/
structure GroupVersion where
  Group : String
  Version : String
deriving DecidableEq, Repr

/-- The type `schema.GroupVersionKind`. -/
structure GroupVersionKind where
  Group : String
  Version : String
  Kind : String
deriving DecidableEq, Repr

/-- The type `runtime.TypeMeta`: the type discriminator of a serialized object. -/
structure TypeMeta where
  APIVersion : String
  Kind : String
deriving DecidableEq, Repr

/-- The type `infrainternal.InfrastructureState`, the legacy state document. The type is
declared outside the modelled file; `hasFlowState` reads its `TerraformState` pointer only. -/
structure InfrastructureState where
  SavedProviderStatus : Option RawExtension
  TerraformState : Option RawExtension
deriving DecidableEq, Repr

/-! ## Environment: constants and collaborators outside the modelled file -/

/-- Constants of package `gcp` and of the API package, and the functions the actuator
calls in other packages. -/
structure Env where
  /-- The flow state document of package infraflow. -/
  FlowState : Type
  /-- The constant `gcptypes.AnnotationKeyUseTerraform`. -/
  AnnotationKeyUseTerraform : String
  /-- The constant `gcptypes.AnnotationKeyUseFlow`. -/
  AnnotationKeyUseFlow : String
  /-- The constant `gcptypes.SeedLabelKeyUseFlow`. -/
  SeedLabelKeyUseFlow : String
  /-- The constant `v1alpha1.SchemeGroupVersion`. -/
  SchemeGroupVersion : GroupVersion
  /-- The call `json.Marshal(obj)` on a runtime object. -/
  jsonMarshal : RuntimeObject → Bytes × Option GoError
  /-- The call `json.Unmarshal(data, &typeMeta)` on a zero `TypeMeta`. -/
  unmarshalTypeMeta : Bytes → TypeMeta × Option GoError
  /-- The call `json.Unmarshal(data, infraState)` on a zero `InfrastructureState`. -/
  unmarshalInfrastructureState : Bytes → InfrastructureState × Option GoError
  /-- The function `infraflow.IsJSONFlowState`. -/
  IsJSONFlowState : Bytes → Bool × Option GoError
  /-- The function `infraflow.NewFlowStateFromJSON`. -/
  NewFlowStateFromJSON : Bytes → Option FlowState × Option GoError

/-! ## apimachinery helpers used by `hasFlowState` -/

/-- The method `RawExtension.MarshalJSON`: the raw bytes when the slice is not nil, else the
marshalled object, else the four bytes of the JSON literal null. -/
def MarshalJSON (env : Env) (re : RawExtension) : Bytes × Option GoError :=
  match re.Raw with
  | none =>
    match re.Object with
    | some obj => env.jsonMarshal obj
    | none => ([110, 117, 108, 108], none)
  | some raw => (raw, none)

/-- The function `schema.ParseGroupVersion`; `none` is the error result. -/
def ParseGroupVersion (gv : String) : Option GroupVersion :=
  if gv.length = 0 ∨ gv = "/" then some ⟨"", ""⟩
  else
    match gv.data.count '/' with
    | 0 => some ⟨"", gv⟩
    | 1 =>
      some ⟨String.mk (gv.data.takeWhile (· ≠ '/')),
            String.mk ((gv.data.dropWhile (· ≠ '/')).drop 1)⟩
    | _ => none

/-- The method `TypeMeta.GroupVersionKind` (`schema.FromAPIVersionAndKind`). -/
def TypeMeta.GroupVersionKind (tm : TypeMeta) : GroupVersionKind :=
  match ParseGroupVersion tm.APIVersion with
  | some gv => ⟨gv.Group, gv.Version, tm.Kind⟩
  | none => ⟨"", "", tm.Kind⟩

/-- The method `GroupVersionKind.GroupVersion`. -/
def GroupVersionKind.GroupVersion (gvk : GroupVersionKind) : GroupVersion :=
  ⟨gvk.Group, gvk.Version⟩

/-! ## The actuator: state classification and backend selection -/

/-- The message of the error `hasFlowState` returns for an unrecognised document. -/
def unknownStateFormat : GoError := "unknown infrastructure state format"

/-- The function `hasFlowState` of actuator.go. -/
def hasFlowState (env : Env) (status : InfrastructureStatus) : Bool × Option GoError :=
  match status.State with
  | none => (false, none)
  | some st =>
    match MarshalJSON env st with
    | (_, some err) => (false, some err)
    | (stateJson, none) =>
      match env.unmarshalTypeMeta stateJson with
      | (_, some err) => (false, some err)
      | (flowState, none) =>
        if flowState.GroupVersionKind.GroupVersion = env.SchemeGroupVersion then (true, none)
        else
          match env.unmarshalInfrastructureState (st.Raw.getD []) with
          | (_, some err) => (false, some err)
          | (infraState, none) =>
            if infraState.TerraformState ≠ none then (false, none)
            else (false, some unknownStateFormat)

/-- The function `hasShootAnnotation` of actuator.go. -/
def hasShootAnnotation (infrastructure : Infrastructure) (cluster : Cluster) (key : String) :
    Bool :=
  (infrastructure.Annotations ≠ none && EqualFold (mapIndex infrastructure.Annotations key) "true")
  || (match cluster.Shoot with
      | none => false
      | some shoot =>
        shoot.Annotations ≠ none && EqualFold (mapIndex shoot.Annotations key) "true")

/-- The function `HasFlowAnnotation` of actuator.go. -/
def HasFlowAnnotation (env : Env) (infrastructure : Infrastructure) (cluster : Cluster) : Bool :=
  if hasShootAnnotation infrastructure cluster env.AnnotationKeyUseTerraform then false
  else if hasShootAnnotation infrastructure cluster env.AnnotationKeyUseFlow then true
  else
    match cluster.Seed with
    | none => false
    | some seed =>
      seed.Annotations ≠ none && EqualFold (mapIndex seed.Annotations env.AnnotationKeyUseFlow) "true"

/-- The function `getFlowStateFromInfrastructureStatus` of actuator.go. -/
def getFlowStateFromInfrastructureStatus (env : Env) (infrastructure : Infrastructure) :
    Option env.FlowState × Option GoError :=
  match infrastructure.Status.State with
  | none => (none, none)
  | some st =>
    if (st.Raw.getD []).length = 0 then (none, none)
    else
      match MarshalJSON env st with
      | (_, some err) => (none, some err)
      | (stateJSON, none) =>
        match env.IsJSONFlowState stateJSON with
        | (_, some err) => (none, some err)
        | (isFlowState, none) =>
          if isFlowState then env.NewFlowStateFromJSON stateJSON
          else (none, none)

/-- The function `shouldUseFlow` of actuator.go. -/
def shouldUseFlow (env : Env) (infra : Infrastructure) (cluster : Cluster) :
    Bool × Option GoError :=
  match getFlowStateFromInfrastructureStatus env infra with
  | (_, some err) => (false, some err)
  | (some _, none) => (true, none)
  | (none, none) =>
    (EqualFold (mapIndex infra.Annotations env.AnnotationKeyUseFlow) "true"
      || (match cluster.Shoot with
          | none => false
          | some shoot => EqualFold (mapIndex shoot.Annotations env.AnnotationKeyUseFlow) "true")
      || (match cluster.Seed with
          | none => false
          | some seed => EqualFold (mapIndex seed.Labels env.SeedLabelKeyUseFlow) "true"),
     none)

/-! ## The actuator: status update -/

/-- A JSON merge patch restricted to the two status fields the actuator writes. For each
field, `none` says the patch does not mention it and `some v` that the patch sets it to `v`
(to null when `v` is `none`). -/
structure StatusPatch where
  ProviderStatus : Option (Option RawExtension)
  State : Option (Option RawExtension)
deriving DecidableEq, Repr

/-- The entry of a merge patch for one field: absent when the field is unchanged. -/
def fieldDiff {α : Type} [DecidableEq α] (base modified : α) : Option α :=
  if modified = base then none else some modified

/-- The method `Infrastructure.DeepCopy`: a copy of the value at the time of the call. -/
def Infrastructure.DeepCopy (infra : Infrastructure) : Infrastructure := infra

/-- The patch `client.MergeFrom(base)`: it remembers the base object. -/
structure MergeFromPatch where
  base : Infrastructure
deriving DecidableEq, Repr

/-- The function `client.MergeFrom`. -/
def MergeFrom (base : Infrastructure) : MergeFromPatch := ⟨base⟩

/-- The method `Data` of a merge-from patch: the difference between the base and the
object handed to `Patch`. -/
def MergeFromPatch.Data (p : MergeFromPatch) (obj : Infrastructure) : StatusPatch :=
  ⟨fieldDiff p.base.Status.ProviderStatus obj.Status.ProviderStatus,
   fieldDiff p.base.Status.State obj.Status.State⟩

/-- The status writer of the client: the patches it has sent, and the answer of the API
server to a patch request. -/
structure Client where
  sent : List StatusPatch
  answer : StatusPatch → Option GoError

/-- The call `client.Status().Patch(ctx, obj, patch)`: computes the patch data for `obj`,
sends it and returns the answer. -/
def Client.StatusPatch (c : Client) (obj : Infrastructure) (patch : MergeFromPatch) :
    Client × Option GoError :=
  let data := patch.Data obj
  (⟨c.sent ++ [data], c.answer⟩, c.answer data)

/-- The method `actuator.updateProviderStatusAndState` of actuator.go. The two assignments
run first; the argument `client.MergeFrom(infra.DeepCopy())` is evaluated when the call
to `Patch` is made. The result is the object after the assignments (the answer of the
server, which `Patch` decodes into the object on success, is not modelled), the client
and the returned error. -/
def updateProviderStatusAndState (c : Client) (infra : Infrastructure)
    (status : RuntimeObject) (state : Option RawExtension) :
    Infrastructure × Client × Option GoError :=
  let infra1 : Infrastructure :=
    ⟨infra.Annotations, ⟨some ⟨none, some status⟩, infra.Status.State⟩⟩
  let infra2 : Infrastructure :=
    ⟨infra1.Annotations, ⟨infra1.Status.ProviderStatus, state⟩⟩
  let patch := MergeFrom infra2.DeepCopy
  let r := c.StatusPatch infra2 patch
  (infra2, r.1, r.2)

/-! ## The actuator: Terraformer cleanup -/

/-- The calls `cleanupTerraformerResources` makes into package internal. -/
inductive TerraformerCall where
  | NewTerraformer
  | CleanupConfiguration
  | RemoveTerraformerFinalizerFromConfig
deriving DecidableEq, Repr

/-- The error each Terraformer call returns when it is made (`none`: it succeeds). -/
structure TerraformerOutcomes where
  NewTerraformer : Option GoError
  CleanupConfiguration : Option GoError
  RemoveTerraformerFinalizerFromConfig : Option GoError
deriving DecidableEq, Repr

/-- Making one call: it is appended to the log of calls and its outcome is returned. -/
def invoke (call : TerraformerCall) (outcome : Option GoError) (log : List TerraformerCall) :
    Option GoError × List TerraformerCall :=
  (outcome, log ++ [call])

/-- The method `actuator.cleanupTerraformerResources` of actuator.go, as a function from
the outcomes of the calls and the log so far to the returned error and the new log. -/
def cleanupTerraformerResources (o : TerraformerOutcomes) (log : List TerraformerCall) :
    Option GoError × List TerraformerCall :=
  match invoke .NewTerraformer o.NewTerraformer log with
  | (some err, log1) => (some err, log1)
  | (none, log1) =>
    match invoke .CleanupConfiguration o.CleanupConfiguration log1 with
    | (some err, log2) => (some err, log2)
    | (none, log2) =>
      invoke .RemoveTerraformerFinalizerFromConfig o.RemoveTerraformerFinalizerFromConfig log2

/-! ## Firewall rules to delete -/

/-- The type `client.Firewall`, with the fields set by the test of package infraflow. -/
structure Firewall where
  Name : String
  Network : String
deriving DecidableEq, Repr

/-- The parts of the deletion rule that the specification leaves open: which names follow
the managed-resource naming convention of a cluster, and which managed names are
currently desired for it. -/
structure ManagedNames where
  owned : String → String → Bool
  desired : String → List String

/-- Modelled from the spec: `infraflow.FirewallRulesToDelete` is not among the source
files, only its test is. Section 4.4: a rule is a deletion candidate only if its network
equals the target network, its name matches the naming convention of the cluster, and it
is not in the desired set of managed names. -/
def FirewallRulesToDelete (conv : ManagedNames) (firewalls : List Firewall)
    (shootSeedNamespace vpcName : String) : List Firewall :=
  firewalls.filter fun fw =>
    decide (fw.Network = vpcName) && conv.owned shootSeedNamespace fw.Name
      && !(conv.desired shootSeedNamespace).contains fw.Name

/-- The firewall rules of the test of package infraflow. -/
def testFirewallRules (clusterName vpcName otherVPCName : String) : List Firewall :=
  [⟨clusterName ++ "allow-internal-access", vpcName⟩,
   ⟨clusterName ++ "allow-health-checks", vpcName⟩,
   ⟨clusterName ++ "allow-external-access", vpcName⟩,
   ⟨"k8s-foo", vpcName⟩,
   ⟨"k8s-bar", vpcName⟩,
   ⟨"k8s-other-foo", otherVPCName⟩]

/-! ## Vocabulary of the statements -/

/-- The map holds an entry for `key` whose value equals "true" ignoring case. -/
def markedTrue (m : GoMap) (key : String) : Bool :=
  match m with
  | none => false
  | some kvs =>
    match kvs.lookup key with
    | none => false
    | some v => EqualFold v "true"

/-- The force-legacy (use-terraform) annotation is set to "true", ignoring case, on the
infrastructure object or on the shoot. -/
def forceLegacyMarked (env : Env) (infra : Infrastructure) (cluster : Cluster) : Bool :=
  markedTrue infra.Annotations env.AnnotationKeyUseTerraform
    || (match cluster.Shoot with
        | none => false
        | some shoot => markedTrue shoot.Annotations env.AnnotationKeyUseTerraform)

/-- The use-flow annotation is set to "true", ignoring case, on the infrastructure object
or on the shoot. -/
def useFlowAnnotated (env : Env) (infra : Infrastructure) (cluster : Cluster) : Bool :=
  markedTrue infra.Annotations env.AnnotationKeyUseFlow
    || (match cluster.Shoot with
        | none => false
        | some shoot => markedTrue shoot.Annotations env.AnnotationKeyUseFlow)

/-- The seed carries the default use-flow label with the value "true", ignoring case. -/
def seedLabelled (env : Env) (cluster : Cluster) : Bool :=
  match cluster.Seed with
  | none => false
  | some seed => markedTrue seed.Labels env.SeedLabelKeyUseFlow

/-- The infrastructure object has no persisted state: the state pointer is nil or its raw
bytes are empty. -/
def noPersistedState (infra : Infrastructure) : Bool :=
  match infra.Status.State with
  | none => true
  | some st => decide (st.Raw = none) || decide (st.Raw = some [])

/-- The type discriminator read by the first pass of `hasFlowState`. -/
def discriminatorOf (env : Env) (st : RawExtension) : TypeMeta :=
  (env.unmarshalTypeMeta (MarshalJSON env st).1).1

/-- The legacy document read by the second pass of `hasFlowState`. -/
def legacyDocumentOf (env : Env) (st : RawExtension) : InfrastructureState :=
  (env.unmarshalInfrastructureState (st.Raw.getD [])).1

/-- The state marshals, and both decoding passes succeed on it. -/
def decodesInBothPasses (env : Env) (st : RawExtension) : Prop :=
  (MarshalJSON env st).2 = none
    ∧ (env.unmarshalTypeMeta (MarshalJSON env st).1).2 = none
    ∧ (env.unmarshalInfrastructureState (st.Raw.getD [])).2 = none

/-- The state is present, its type discriminator parses, and the group/version of the
discriminator is the flow-native one. -/
def flowDiscriminated (env : Env) (status : InfrastructureStatus) : Prop :=
  ∃ st, status.State = some st
    ∧ (MarshalJSON env st).2 = none
    ∧ (env.unmarshalTypeMeta (MarshalJSON env st).1).2 = none
    ∧ (discriminatorOf env st).GroupVersionKind.GroupVersion = env.SchemeGroupVersion

/-- The environment `env` with another decoder for the legacy document. -/
def Env.withLegacyDecoder (env : Env)
    (dec : Bytes → InfrastructureState × Option GoError) : Env :=
  ⟨env.FlowState, env.AnnotationKeyUseTerraform, env.AnnotationKeyUseFlow,
   env.SeedLabelKeyUseFlow, env.SchemeGroupVersion, env.jsonMarshal, env.unmarshalTypeMeta,
   dec, env.IsJSONFlowState, env.NewFlowStateFromJSON⟩

/-! ## A sample environment and sample objects -/

/-- The bytes of an ASCII string. -/
def bytesOf (s : String) : Bytes :=
  s.data.map fun c => UInt8.ofNat c.toNat

/-- A flow-native state document. -/
def flowDocument : Bytes :=
  bytesOf "\x7b\"apiVersion\":\"gcp.provider.extensions.gardener.cloud/v1alpha1\",\"kind\":\"FlowState\"\x7d"

/-- A legacy state document with a Terraform state section. -/
def legacyDocument : Bytes :=
  bytesOf "\x7b\"terraformState\":\x7b\"version\":4\x7d\x7d"

/-- A document with the flow-native discriminator and a Terraform state section. -/
def mixedDocument : Bytes :=
  bytesOf "\x7b\"apiVersion\":\"gcp.provider.extensions.gardener.cloud/v1alpha1\",\"kind\":\"FlowState\",\"terraformState\":\x7b\"version\":4\x7d\x7d"

/-- A document of neither shape. -/
def emptyDocument : Bytes :=
  bytesOf "\x7b\x7d"

/-- The Terraform state section of the sample documents. -/
def sampleTerraformState : RawExtension :=
  ⟨some (bytesOf "\x7b\"version\":4\x7d"), none⟩

/-- A sample environment. Its decoders know the four sample documents and reject every
other input; the keys and the group/version are sample values of the constants. -/
def sampleEnv : Env where
  FlowState := Bytes
  AnnotationKeyUseTerraform := "gcp.provider.extensions.gardener.cloud/use-terraform"
  AnnotationKeyUseFlow := "gcp.provider.extensions.gardener.cloud/use-flow"
  SeedLabelKeyUseFlow := "provider.extensions.gardener.cloud/use-flow"
  SchemeGroupVersion := ⟨"gcp.provider.extensions.gardener.cloud", "v1alpha1"⟩
  jsonMarshal := fun obj => (bytesOf obj.name, none)
  unmarshalTypeMeta := fun data =>
    if data = flowDocument ∨ data = mixedDocument then
      (⟨"gcp.provider.extensions.gardener.cloud/v1alpha1", "FlowState"⟩, none)
    else if data = legacyDocument ∨ data = emptyDocument then (⟨"", ""⟩, none)
    else (⟨"", ""⟩, some "invalid character")
  unmarshalInfrastructureState := fun data =>
    if data = legacyDocument ∨ data = mixedDocument then
      (⟨none, some sampleTerraformState⟩, none)
    else if data = flowDocument ∨ data = emptyDocument then (⟨none, none⟩, none)
    else (⟨none, none⟩, some "invalid character")
  IsJSONFlowState := fun data =>
    if data = flowDocument ∨ data = mixedDocument then (true, none)
    else if data = legacyDocument ∨ data = emptyDocument then (false, none)
    else (false, some "invalid character")
  NewFlowStateFromJSON := fun data => (some data, none)

/-- An infrastructure object with the given annotations and raw state. -/
def infraWith (annotations : GoMap) (state : Option Bytes) : Infrastructure :=
  ⟨annotations, ⟨none, state.map fun raw => ⟨some raw, none⟩⟩⟩

/-- A cluster without shoot and seed. -/
def bareCluster : Cluster := ⟨none, none⟩

/-- A cluster whose seed carries the default use-flow label and no annotations. -/
def labelledSeedCluster : Cluster :=
  ⟨some ⟨none⟩, some ⟨none, some [(sampleEnv.SeedLabelKeyUseFlow, "true")]⟩⟩

/-- A sample naming convention: a managed name starts with the cluster name; the
desired names are two of the rules of the test. -/
def sampleManagedNames : ManagedNames where
  owned := fun cluster name => cluster.data.isPrefixOf name.data
  desired := fun cluster =>
    [cluster ++ "allow-internal-access", cluster ++ "allow-health-checks"]

/-! ## Facts about the comparison with "true" -/

/-- Against a lower-case ASCII letter, a rune matches exactly when it is that letter or
its upper-case form. -/
theorem foldPair_lower (c p : Char) (hp1 : 'a' ≤ p) (hp2 : p ≤ 'z') :
    foldPair c p = true ↔ c = p ∨ c.toNat + 32 = p.toNat := by
  have h1 : (97 : Nat) ≤ p.toNat := hp1
  have h2 : p.toNat ≤ 122 := hp2
  unfold foldPair
  by_cases h : p = c
  · simp [h]
  · have hne : ¬ c = p := fun e => h e.symm
    simp only [h, if_false, hne, false_or]
    have hlt : (p < c) ↔ p.toNat < c.toNat := Iff.rfl
    have hle1 : ∀ x : Char, ('A' ≤ x) ↔ 65 ≤ x.toNat := fun x => Iff.rfl
    have hle2 : ∀ x : Char, (x ≤ 'Z') ↔ x.toNat ≤ 90 := fun x => Iff.rfl
    have ha : 'a'.toNat - 'A'.toNat = 32 := by decide
    by_cases hc : p < c
    · simp only [hc, if_true, Bool.and_eq_true, decide_eq_true_eq, hle1, hle2, ha]
      rw [hlt] at hc
      omega
    · simp only [hc, if_false, Bool.and_eq_true, decide_eq_true_eq, hle1, hle2, ha]
      rw [hlt] at hc
      omega

/-- A rune is determined by its code point. -/
theorem char_eq_of_toNat (c d : Char) (h : c.toNat = d.toNat) : c = d := by
  rw [← Char.ofNat_toNat c, ← Char.ofNat_toNat d, h]

/-- The values that equal "true" ignoring case are the four-letter strings spelling
t, r, u, e in either case. -/
theorem EqualFold_true_iff (v : String) :
    EqualFold v "true" = true ↔
      ∃ a b c d, v = String.mk [a, b, c, d] ∧ (a = 't' ∨ a = 'T') ∧ (b = 'r' ∨ b = 'R')
        ∧ (c = 'u' ∨ c = 'U') ∧ (d = 'e' ∨ d = 'E') := by
  have key : ∀ (c p q : Char), 'a' ≤ p → p ≤ 'z' → q.toNat + 32 = p.toNat →
      (foldPair c p = true ↔ c = p ∨ c = q) := by
    intro c p q h1 h2 hq
    rw [foldPair_lower c p h1 h2]
    constructor
    · rintro (h | h)
      · exact Or.inl h
      · exact Or.inr (char_eq_of_toNat c q (by omega))
    · rintro (h | h)
      · exact Or.inl h
      · subst h
        exact Or.inr hq
  have kt := fun c => key c 't' 'T' (by decide) (by decide) (by decide)
  have kr := fun c => key c 'r' 'R' (by decide) (by decide) (by decide)
  have ku := fun c => key c 'u' 'U' (by decide) (by decide) (by decide)
  have ke := fun c => key c 'e' 'E' (by decide) (by decide) (by decide)
  obtain ⟨l⟩ := v
  have hdata : ("true" : String).data = ['t', 'r', 'u', 'e'] := by decide
  simp only [EqualFold, hdata]
  constructor
  · intro h
    rcases l with _ | ⟨a, _ | ⟨b, _ | ⟨c, _ | ⟨d, _ | ⟨e, t⟩⟩⟩⟩⟩
    · simp [EqualFoldRunes] at h
    · simp [EqualFoldRunes] at h
    · simp [EqualFoldRunes] at h
    · simp [EqualFoldRunes] at h
    · simp only [EqualFoldRunes, Bool.and_eq_true, Bool.and_true] at h
      exact ⟨a, b, c, d, rfl, (kt a).1 h.1, (kr b).1 h.2.1, (ku c).1 h.2.2.1,
        (ke d).1 h.2.2.2⟩
    · simp [EqualFoldRunes] at h
  · rintro ⟨a, b, c, d, hv, ha, hb, hc, hd⟩
    have hl : l = [a, b, c, d] := congrArg String.data hv
    subst hl
    simp only [EqualFoldRunes, Bool.and_eq_true, Bool.and_true]
    exact ⟨(kt a).2 ha, (kr b).2 hb, (ku c).2 hc, (ke d).2 hd⟩

/-- A map read compares equal to "true" exactly when the map holds such an entry: the
zero value read from a nil map or for a missing key does not. -/
theorem EqualFold_mapIndex (m : GoMap) (key : String) :
    EqualFold (mapIndex m key) "true" = markedTrue m key := by
  cases m with
  | none => simp only [mapIndex, markedTrue]; decide
  | some kvs =>
    simp only [mapIndex, markedTrue]
    cases kvs.lookup key with
    | none => simp only [Option.getD_none]; decide
    | some v => rfl

/-- The nil check that guards a map read does not change the outcome. -/
theorem guarded_mapIndex (m : GoMap) (key : String) :
    (decide (m ≠ none) && EqualFold (mapIndex m key) "true") = markedTrue m key := by
  rw [EqualFold_mapIndex]
  cases m with
  | none => simp [markedTrue]
  | some kvs => simp

/-- The function `hasShootAnnotation` tests the marker on the infrastructure object and on
the shoot. -/
theorem hasShootAnnotation_eq (infra : Infrastructure) (cluster : Cluster) (key : String) :
    hasShootAnnotation infra cluster key =
      (markedTrue infra.Annotations key
        || (match cluster.Shoot with
            | none => false
            | some shoot => markedTrue shoot.Annotations key)) := by
  unfold hasShootAnnotation
  rw [guarded_mapIndex]
  cases cluster.Shoot with
  | none => rfl
  | some shoot => simp only [guarded_mapIndex]

/-! ## Backend selection -/

/-- Without persisted state no flow state is read, and no error arises. -/
theorem getFlowState_of_noPersistedState (env : Env) (infra : Infrastructure)
    (h : noPersistedState infra = true) :
    getFlowStateFromInfrastructureStatus env infra = (none, none) := by
  unfold getFlowStateFromInfrastructureStatus
  unfold noPersistedState at h
  cases hs : infra.Status.State with
  | none => rfl
  | some st =>
    rw [hs] at h
    simp only [Bool.or_eq_true, decide_eq_true_eq] at h
    rcases h with h | h <;> simp [h]

/-- With a non-empty state that the infraflow helpers classify and decode as flow state,
that flow state is read. -/
theorem getFlowState_of_flow (env : Env) (infra : Infrastructure) (st : RawExtension)
    (raw : Bytes) (fs : env.FlowState)
    (hstate : infra.Status.State = some st) (hraw : st.Raw = some raw) (hne : raw ≠ [])
    (hflow : env.IsJSONFlowState raw = (true, none))
    (hnew : env.NewFlowStateFromJSON raw = (some fs, none)) :
    getFlowStateFromInfrastructureStatus env infra = (some fs, none) := by
  unfold getFlowStateFromInfrastructureStatus
  have hlen : ¬ raw.length = 0 := fun h => hne (List.length_eq_zero.mp h)
  simp [hstate, hraw, hlen, MarshalJSON, hflow, hnew]

/-- Claim C1, evaluated on the code: with the force-legacy annotation set to "true" on the
infrastructure object, `shouldUseFlow` still answers flow, both when the persisted state is
flow-native and when there is no state but a use-flow annotation; `HasFlowAnnotation`
answers legacy on the same objects. -/
theorem shouldUseFlow_ignores_force_legacy :
    forceLegacyMarked sampleEnv
        (infraWith (some [(sampleEnv.AnnotationKeyUseTerraform, "true")]) (some flowDocument))
        bareCluster = true
    ∧ shouldUseFlow sampleEnv
        (infraWith (some [(sampleEnv.AnnotationKeyUseTerraform, "true")]) (some flowDocument))
        bareCluster = (true, none)
    ∧ forceLegacyMarked sampleEnv
        (infraWith (some [(sampleEnv.AnnotationKeyUseTerraform, "true"),
          (sampleEnv.AnnotationKeyUseFlow, "true")]) none) bareCluster = true
    ∧ shouldUseFlow sampleEnv
        (infraWith (some [(sampleEnv.AnnotationKeyUseTerraform, "true"),
          (sampleEnv.AnnotationKeyUseFlow, "true")]) none) bareCluster = (true, none)
    ∧ HasFlowAnnotation sampleEnv
        (infraWith (some [(sampleEnv.AnnotationKeyUseTerraform, "true"),
          (sampleEnv.AnnotationKeyUseFlow, "true")]) none) bareCluster = false := by
  decide

/-- Claim C2: when the persisted state is non-empty, `IsJSONFlowState` reports true for it
and `NewFlowStateFromJSON` yields a state, and no force-legacy marker is set,
`shouldUseFlow` returns true without error, for every cluster and whatever use-flow
annotations and seed labels are present or absent. -/
theorem shouldUseFlow_flow_state_sticky (env : Env) (infra : Infrastructure)
    (cluster : Cluster) (st : RawExtension) (raw : Bytes) (fs : env.FlowState)
    (hstate : infra.Status.State = some st) (hraw : st.Raw = some raw) (hne : raw ≠ [])
    (hflow : env.IsJSONFlowState raw = (true, none))
    (hnew : env.NewFlowStateFromJSON raw = (some fs, none))
    (_hlegacy : forceLegacyMarked env infra cluster = false) :
    shouldUseFlow env infra cluster = (true, none) := by
  unfold shouldUseFlow
  rw [getFlowState_of_flow env infra st raw fs hstate hraw hne hflow hnew]

/-- Witness for claim C2: a flow-native state on an object and a cluster that carry no
marker at all. -/
theorem shouldUseFlow_flow_state_sticky_witness :
    useFlowAnnotated sampleEnv (infraWith none (some flowDocument)) bareCluster = false
    ∧ seedLabelled sampleEnv bareCluster = false
    ∧ shouldUseFlow sampleEnv (infraWith none (some flowDocument)) bareCluster = (true, none) :=
  ⟨by decide, by decide,
   shouldUseFlow_flow_state_sticky sampleEnv (infraWith none (some flowDocument)) bareCluster
     ⟨some flowDocument, none⟩ flowDocument flowDocument rfl rfl (by decide) (by decide)
     rfl (by decide)⟩

/-- Claim C3: with no persisted state (state nil or raw bytes empty) and no force-legacy
marker, `shouldUseFlow` returns without error, and it returns true if and only if the
use-flow annotation of the infrastructure object, the use-flow annotation of the shoot or
the use-flow label of the seed holds a value equal to "true" ignoring case; so with a nil
shoot, a nil seed and nil maps it returns false, and a value such as "false", "1" or the
empty string does not count. -/
theorem shouldUseFlow_without_state (env : Env) (infra : Infrastructure) (cluster : Cluster)
    (hstate : noPersistedState infra = true)
    (_hlegacy : forceLegacyMarked env infra cluster = false) :
    (shouldUseFlow env infra cluster).2 = none
    ∧ ((shouldUseFlow env infra cluster).1 = true ↔
        (markedTrue infra.Annotations env.AnnotationKeyUseFlow = true
          ∨ (∃ shoot, cluster.Shoot = some shoot
              ∧ markedTrue shoot.Annotations env.AnnotationKeyUseFlow = true)
          ∨ (∃ seed, cluster.Seed = some seed
              ∧ markedTrue seed.Labels env.SeedLabelKeyUseFlow = true)))
    ∧ (infra.Annotations = none → cluster.Shoot = none → cluster.Seed = none →
        (shouldUseFlow env infra cluster).1 = false)
    ∧ (∀ key, markedTrue none key = false)
    ∧ (∀ kvs key, kvs.lookup key = none → markedTrue (some kvs) key = false)
    ∧ (∀ kvs key v, kvs.lookup key = some v → (v = "false" ∨ v = "1" ∨ v = "") →
        markedTrue (some kvs) key = false) := by
  have hval : shouldUseFlow env infra cluster =
      (markedTrue infra.Annotations env.AnnotationKeyUseFlow
        || (match cluster.Shoot with
            | none => false
            | some shoot => markedTrue shoot.Annotations env.AnnotationKeyUseFlow)
        || (match cluster.Seed with
            | none => false
            | some seed => markedTrue seed.Labels env.SeedLabelKeyUseFlow), none) := by
    unfold shouldUseFlow
    rw [getFlowState_of_noPersistedState env infra hstate]
    simp only [EqualFold_mapIndex]
  refine ⟨by rw [hval], ?_, ?_, ?_, ?_, ?_⟩
  · rw [hval]
    cases cluster.Shoot <;> cases cluster.Seed <;> simp [or_assoc]
  · intro ha hs hd
    rw [hval, ha, hs, hd]
    rfl
  · intro key
    rfl
  · intro kvs key h
    simp [markedTrue, h]
  · intro kvs key v h hv
    simp only [markedTrue, h]
    rcases hv with rfl | rfl | rfl <;> decide

/-- Witness for claim C3: no state, no force-legacy marker, and the shoot annotated with
use-flow "True". -/
theorem shouldUseFlow_without_state_witness :
    noPersistedState (infraWith none none) = true
    ∧ forceLegacyMarked sampleEnv (infraWith none none)
        ⟨some ⟨some [(sampleEnv.AnnotationKeyUseFlow, "True")]⟩, none⟩ = false
    ∧ shouldUseFlow sampleEnv (infraWith none none)
        ⟨some ⟨some [(sampleEnv.AnnotationKeyUseFlow, "True")]⟩, none⟩ = (true, none) :=
  ⟨by decide, by decide,
   Prod.ext
     ((shouldUseFlow_without_state sampleEnv (infraWith none none)
        ⟨some ⟨some [(sampleEnv.AnnotationKeyUseFlow, "True")]⟩, none⟩
        (by decide) (by decide)).2.1.2 (Or.inr (Or.inl ⟨_, rfl, by decide⟩)))
     (by decide)⟩

/-- Claim C7: when the force-legacy (use-terraform) annotation equals "true" ignoring case
on the infrastructure object or on the shoot, `HasFlowAnnotation` returns false, whatever
use-flow annotations the infrastructure object, the shoot and the seed carry; when no
force-legacy annotation is set and a use-flow annotation equal to "true" ignoring case is
on the infrastructure object or the shoot, it returns true. -/
theorem HasFlowAnnotation_precedence (env : Env) (infra : Infrastructure) (cluster : Cluster) :
    (forceLegacyMarked env infra cluster = true → HasFlowAnnotation env infra cluster = false)
    ∧ (forceLegacyMarked env infra cluster = false → useFlowAnnotated env infra cluster = true →
        HasFlowAnnotation env infra cluster = true) := by
  unfold HasFlowAnnotation forceLegacyMarked useFlowAnnotated
  rw [hasShootAnnotation_eq, hasShootAnnotation_eq]
  constructor
  · intro h
    rw [h]
    rfl
  · intro h1 h2
    rw [h1, h2]
    rfl

/-- Witness for claim C7: an object with both annotations and a seed annotated with
use-flow is legacy; an object with the use-flow annotation only is flow. -/
theorem HasFlowAnnotation_precedence_witness :
    HasFlowAnnotation sampleEnv
        (infraWith (some [(sampleEnv.AnnotationKeyUseTerraform, "TRUE"),
          (sampleEnv.AnnotationKeyUseFlow, "true")]) none)
        ⟨none, some ⟨some [(sampleEnv.AnnotationKeyUseFlow, "true")], none⟩⟩ = false
    ∧ HasFlowAnnotation sampleEnv
        (infraWith (some [(sampleEnv.AnnotationKeyUseFlow, "tRue")]) none) bareCluster = true :=
  ⟨(HasFlowAnnotation_precedence sampleEnv _ _).1 (by decide),
   (HasFlowAnnotation_precedence sampleEnv _ _).2 (by decide) (by decide)⟩

/-- Claim C8, evaluated on the code: with no annotation on the infrastructure object and
the shoot and the default use-flow label set to "true" on the seed, `HasFlowAnnotation`
returns false, while `shouldUseFlow` returns true on the same input with no persisted
state; `HasFlowAnnotation` reads the annotations of the seed, not its labels. -/
theorem HasFlowAnnotation_ignores_seed_label :
    forceLegacyMarked sampleEnv (infraWith none none) labelledSeedCluster = false
    ∧ useFlowAnnotated sampleEnv (infraWith none none) labelledSeedCluster = false
    ∧ seedLabelled sampleEnv labelledSeedCluster = true
    ∧ noPersistedState (infraWith none none) = true
    ∧ HasFlowAnnotation sampleEnv (infraWith none none) labelledSeedCluster = false
    ∧ shouldUseFlow sampleEnv (infraWith none none) labelledSeedCluster = (true, none) := by
  decide

/-! ## State classification -/

/-- The three outcomes of `hasFlowState` on a state that marshals and decodes in both
passes. -/
theorem hasFlowState_of_decodes (env : Env) (status : InfrastructureStatus)
    (st : RawExtension) (hstate : status.State = some st)
    (hdec : decodesInBothPasses env st) :
    hasFlowState env status =
      if (discriminatorOf env st).GroupVersionKind.GroupVersion = env.SchemeGroupVersion then
        (true, none)
      else if (legacyDocumentOf env st).TerraformState ≠ none then (false, none)
      else (false, some unknownStateFormat) := by
  obtain ⟨h1, h2, h3⟩ := hdec
  unfold hasFlowState discriminatorOf legacyDocumentOf
  rw [hstate]
  rcases hm : MarshalJSON env st with ⟨json, e1⟩
  rw [hm] at h1 h2
  simp only at h1 h2
  subst h1
  rcases ht : env.unmarshalTypeMeta json with ⟨tm, e2⟩
  rw [ht] at h2
  simp only at h2
  subst h2
  rcases hl : env.unmarshalInfrastructureState (st.Raw.getD []) with ⟨doc, e3⟩
  rw [hl] at h3
  simp only at h3
  subst h3
  simp only [hm, ht, hl]

/-- Claim C5, as stated, fails: a state whose discriminator is flow-native and which also
holds a populated Terraform state section decodes in both passes, and `hasFlowState`
answers (true, no error) for it, not (false, no error). -/
theorem hasFlowState_flow_with_legacy_section :
    decodesInBothPasses sampleEnv ⟨some mixedDocument, none⟩
    ∧ (legacyDocumentOf sampleEnv ⟨some mixedDocument, none⟩).TerraformState ≠ none
    ∧ hasFlowState sampleEnv ⟨none, some ⟨some mixedDocument, none⟩⟩ = (true, none)
    ∧ hasFlowState sampleEnv ⟨none, some ⟨some mixedDocument, none⟩⟩ ≠ (false, none) :=
  ⟨⟨by decide, by decide, by decide⟩, by decide, by decide, by decide⟩

/-- Claim C5, amended: when the persisted state marshals and decodes in both passes,
`hasFlowState` returns an error if and only if the state is present, the group/version of
its discriminator is not the flow-native one and the legacy document holds no Terraform
state section; an absent state yields (false, no error), and so does a state whose
discriminator is not flow-native and whose legacy document holds a Terraform state
section. -/
theorem hasFlowState_error_iff (env : Env) (status : InfrastructureStatus)
    (hdec : ∀ st, status.State = some st → decodesInBothPasses env st) :
    ((hasFlowState env status).2 ≠ none ↔
      ∃ st, status.State = some st
        ∧ (discriminatorOf env st).GroupVersionKind.GroupVersion ≠ env.SchemeGroupVersion
        ∧ (legacyDocumentOf env st).TerraformState = none)
    ∧ (status.State = none → hasFlowState env status = (false, none))
    ∧ (∀ st, status.State = some st →
        (discriminatorOf env st).GroupVersionKind.GroupVersion ≠ env.SchemeGroupVersion →
        (legacyDocumentOf env st).TerraformState ≠ none →
        hasFlowState env status = (false, none)) := by
  refine ⟨?_, ?_, ?_⟩
  · cases hs : status.State with
    | none =>
      have : hasFlowState env status = (false, none) := by
        unfold hasFlowState
        rw [hs]
      rw [this]
      simp
    | some st =>
      rw [hasFlowState_of_decodes env status st hs (hdec st hs)]
      constructor
      · intro h
        refine ⟨st, rfl, ?_⟩
        by_cases hg : (discriminatorOf env st).GroupVersionKind.GroupVersion
            = env.SchemeGroupVersion
        · simp [hg] at h
        · by_cases hl : (legacyDocumentOf env st).TerraformState = none
          · exact ⟨hg, hl⟩
          · simp [hg, hl] at h
      · rintro ⟨st', hst', hg, hl⟩
        cases hst'
        simp [hg, hl]
  · intro hs
    unfold hasFlowState
    rw [hs]
  · intro st hs hg hl
    rw [hasFlowState_of_decodes env status st hs (hdec st hs)]
    simp [hg, hl]

/-- Witness for claim C5: the legacy document is classified without error, the document
of neither shape with one. -/
theorem hasFlowState_error_iff_witness :
    hasFlowState sampleEnv ⟨none, some ⟨some legacyDocument, none⟩⟩ = (false, none)
    ∧ (hasFlowState sampleEnv ⟨none, some ⟨some emptyDocument, none⟩⟩).2 ≠ none :=
  ⟨(hasFlowState_error_iff sampleEnv ⟨none, some ⟨some legacyDocument, none⟩⟩
      (fun st h => by cases h; exact ⟨by decide, by decide, by decide⟩)).2.2
      ⟨some legacyDocument, none⟩ rfl (by decide) (by decide),
   (hasFlowState_error_iff sampleEnv ⟨none, some ⟨some emptyDocument, none⟩⟩
      (fun st h => by cases h; exact ⟨by decide, by decide, by decide⟩)).1.2
      ⟨⟨some emptyDocument, none⟩, rfl, by decide, by decide⟩⟩

/-- Whenever `hasFlowState` answers true, the state is present, its discriminator parses
and has the flow-native group/version. -/
theorem flowDiscriminated_of_true (env : Env) (status : InfrastructureStatus)
    (h : (hasFlowState env status).1 = true) : flowDiscriminated env status := by
  unfold hasFlowState at h
  cases hs : status.State with
  | none => rw [hs] at h; simp at h
  | some st =>
    rw [hs] at h
    simp only at h
    rcases hm : MarshalJSON env st with ⟨json, e1⟩
    rw [hm] at h
    cases e1 with
    | some err => simp at h
    | none =>
      simp only at h
      rcases ht : env.unmarshalTypeMeta json with ⟨tm, e2⟩
      rw [ht] at h
      cases e2 with
      | some err => simp at h
      | none =>
        simp only at h
        by_cases hg : tm.GroupVersionKind.GroupVersion = env.SchemeGroupVersion
        · refine ⟨st, hs, ?_, ?_, ?_⟩
          · rw [hm]
          · rw [hm]; simp only; rw [ht]
          · unfold discriminatorOf; rw [hm]; simp only; rw [ht]; exact hg
        · rw [if_neg hg] at h
          rcases hl : env.unmarshalInfrastructureState (st.Raw.getD []) with ⟨doc, e3⟩
          rw [hl] at h
          cases e3 with
          | some err => simp at h
          | none =>
            simp only at h
            split at h <;> simp at h

/-- On a state with a flow-native discriminator, `hasFlowState` answers (true, no error)
whatever the decoder of the legacy document does. -/
theorem hasFlowState_of_flowDiscriminated (env : Env) (status : InfrastructureStatus)
    (h : flowDiscriminated env status)
    (dec : Bytes → InfrastructureState × Option GoError) :
    hasFlowState (env.withLegacyDecoder dec) status = (true, none) := by
  obtain ⟨st, hs, h1, h2, hg⟩ := h
  unfold discriminatorOf at hg
  have hmm : MarshalJSON (env.withLegacyDecoder dec) st = MarshalJSON env st := rfl
  unfold hasFlowState
  rw [hs]
  simp only [hmm]
  rcases hm : MarshalJSON env st with ⟨json, e1⟩
  rw [hm] at h1 h2 hg
  simp only at h1 h2 hg
  subst h1
  have hu : (env.withLegacyDecoder dec).unmarshalTypeMeta json = env.unmarshalTypeMeta json :=
    rfl
  simp only [hu]
  rcases ht : env.unmarshalTypeMeta json with ⟨tm, e2⟩
  rw [ht] at h2 hg
  simp only at h2 hg
  subst h2
  have hsg : (env.withLegacyDecoder dec).SchemeGroupVersion = env.SchemeGroupVersion := rfl
  simp only [hsg, hg, if_true]

/-- Replacing the legacy decoder by itself gives back the behaviour of the environment. -/
theorem hasFlowState_withLegacyDecoder_self (env : Env) (status : InfrastructureStatus) :
    hasFlowState (env.withLegacyDecoder env.unmarshalInfrastructureState) status
      = hasFlowState env status := rfl

/-- Claim C6: `hasFlowState` returns (true, no error) if and only if the state is present,
its type discriminator parses and the group/version of the discriminator equals the
flow-native schema group/version; in that case the answer does not depend on the decoder
of the legacy document, and in every other case the boolean result is false. -/
theorem hasFlowState_true_iff (env : Env) (status : InfrastructureStatus) :
    (hasFlowState env status = (true, none) ↔ flowDiscriminated env status)
    ∧ (flowDiscriminated env status →
        ∀ dec, hasFlowState (env.withLegacyDecoder dec) status = (true, none))
    ∧ (¬ flowDiscriminated env status → (hasFlowState env status).1 = false) := by
  refine ⟨⟨?_, ?_⟩, ?_, ?_⟩
  · intro h
    exact flowDiscriminated_of_true env status (by rw [h])
  · intro h
    rw [← hasFlowState_withLegacyDecoder_self]
    exact hasFlowState_of_flowDiscriminated env status h _
  · intro h dec
    exact hasFlowState_of_flowDiscriminated env status h dec
  · intro h
    cases hb : (hasFlowState env status).1 with
    | false => rfl
    | true => exact absurd (flowDiscriminated_of_true env status hb) h

/-- Witness for claim C6: the flow-native document is classified as flow state also when
the decoder of the legacy document fails on every input, and the legacy document is not
classified as flow state. -/
theorem hasFlowState_true_iff_witness :
    hasFlowState (sampleEnv.withLegacyDecoder fun _ => (⟨none, none⟩, some "unreachable"))
        ⟨none, some ⟨some flowDocument, none⟩⟩ = (true, none)
    ∧ (hasFlowState sampleEnv ⟨none, some ⟨some legacyDocument, none⟩⟩).1 = false :=
  ⟨(hasFlowState_true_iff sampleEnv ⟨none, some ⟨some flowDocument, none⟩⟩).2.1
      ⟨⟨some flowDocument, none⟩, rfl, by decide, by decide, by decide⟩ _,
   (hasFlowState_true_iff sampleEnv ⟨none, some ⟨some legacyDocument, none⟩⟩).2.2
      (by
        rintro ⟨st, hs, _, _, hg⟩
        cases hs
        revert hg
        decide)⟩

/-! ## Status update -/

/-- A field that is compared with itself has no entry in the merge patch. -/
theorem fieldDiff_self {α : Type} [DecidableEq α] (x : α) : fieldDiff x x = none := by
  simp [fieldDiff]

/-- The method `updateProviderStatusAndState` sends exactly one patch; its base is the
copy taken after the two assignments, so the patch mentions neither status field,
whatever the object, the provider status and the state are. -/
theorem updateProviderStatusAndState_sends_empty_patch (c : Client) (infra : Infrastructure)
    (status : RuntimeObject) (state : Option RawExtension) :
    (updateProviderStatusAndState c infra status state).2.1.sent = c.sent ++ [⟨none, none⟩] := by
  simp [updateProviderStatusAndState, Client.StatusPatch, MergeFromPatch.Data, MergeFrom,
    Infrastructure.DeepCopy, fieldDiff_self]

/-- Claim C9, evaluated on the code: for an object without status, a provider status and a
new flow-native state, the one patch that is sent mentions neither field, while the merge
patch against the object as it was before the call carries both. -/
theorem updateProviderStatusAndState_patch_omits_changes :
    (updateProviderStatusAndState ⟨[], fun _ => none⟩ (infraWith none none) ⟨"status"⟩
        (some ⟨some flowDocument, none⟩)).2.1.sent = [⟨none, none⟩]
    ∧ (MergeFrom (infraWith none none).DeepCopy).Data
        (updateProviderStatusAndState ⟨[], fun _ => none⟩ (infraWith none none) ⟨"status"⟩
          (some ⟨some flowDocument, none⟩)).1
      = ⟨some (some ⟨none, some ⟨"status"⟩⟩), some (some ⟨some flowDocument, none⟩)⟩ := by
  decide

/-! ## Terraformer cleanup -/

/-- Claim C10: `cleanupTerraformerResources` constructs the tool handle, then cleans up the
configuration, then removes the finalizer. When construction fails it returns that error
and makes no further call; when cleanup fails it returns that error and does not invoke
finalizer removal; when cleanup succeeds it returns the result of finalizer removal, which
was invoked after cleanup; it returns no error if and only if all steps succeed. -/
theorem cleanupTerraformerResources_steps (o : TerraformerOutcomes) :
    (∀ err, o.NewTerraformer = some err →
      cleanupTerraformerResources o [] = (some err, [.NewTerraformer]))
    ∧ (∀ err, o.NewTerraformer = none → o.CleanupConfiguration = some err →
      cleanupTerraformerResources o [] = (some err, [.NewTerraformer, .CleanupConfiguration]))
    ∧ (o.NewTerraformer = none → o.CleanupConfiguration = none →
      cleanupTerraformerResources o [] =
        (o.RemoveTerraformerFinalizerFromConfig,
         [.NewTerraformer, .CleanupConfiguration, .RemoveTerraformerFinalizerFromConfig]))
    ∧ ((cleanupTerraformerResources o []).1 = none ↔
        (o.NewTerraformer = none ∧ o.CleanupConfiguration = none
          ∧ o.RemoveTerraformerFinalizerFromConfig = none))
    ∧ (TerraformerCall.RemoveTerraformerFinalizerFromConfig ∈ (cleanupTerraformerResources o []).2 →
        o.NewTerraformer = none ∧ o.CleanupConfiguration = none
        ∧ (cleanupTerraformerResources o []).2 =
          [.NewTerraformer, .CleanupConfiguration, .RemoveTerraformerFinalizerFromConfig]) := by
  obtain ⟨n, cl, r⟩ := o
  cases n <;> cases cl <;> cases r <;>
    simp [cleanupTerraformerResources, invoke]

/-- Witness for claim C10: a failing cleanup is returned and the finalizer is not touched;
a failing finalizer removal after a successful cleanup is returned. -/
theorem cleanupTerraformerResources_steps_witness :
    cleanupTerraformerResources ⟨none, some "cleanup failed", none⟩ []
      = (some "cleanup failed", [.NewTerraformer, .CleanupConfiguration])
    ∧ cleanupTerraformerResources ⟨none, none, some "finalizer not removed"⟩ []
      = (some "finalizer not removed",
         [.NewTerraformer, .CleanupConfiguration, .RemoveTerraformerFinalizerFromConfig]) :=
  ⟨(cleanupTerraformerResources_steps ⟨none, some "cleanup failed", none⟩).2.1
      "cleanup failed" rfl rfl,
   (cleanupTerraformerResources_steps ⟨none, none, some "finalizer not removed"⟩).2.2.1
      rfl rfl⟩

/-! ## Firewall rules to delete -/

/-- Claim C4: every rule returned by `FirewallRulesToDelete` is one of the live rules and
has a network equal to the target network, for every list of live rules, cluster name and
target network; a rule on "other-vpc" is never returned for the target "my-vpc", whatever
its name, and the rule "k8s-other-foo" of the test is not returned. -/
theorem FirewallRulesToDelete_same_network (conv : ManagedNames) (firewalls : List Firewall)
    (clusterName vpcName : String) :
    (∀ fw, fw ∈ FirewallRulesToDelete conv firewalls clusterName vpcName →
      fw ∈ firewalls ∧ fw.Network = vpcName)
    ∧ (∀ name, (⟨name, "other-vpc"⟩ : Firewall)
        ∉ FirewallRulesToDelete conv firewalls clusterName "my-vpc")
    ∧ (∀ fw, fw ∈ FirewallRulesToDelete conv
          (testFirewallRules "shoot--foobar--gcp" "my-vpc" "other-vpc")
          "shoot--foobar--gcp" "my-vpc" → fw.Name ≠ "k8s-other-foo") := by
  have key : ∀ (fws : List Firewall) (cl vpc : String) (fw : Firewall),
      fw ∈ FirewallRulesToDelete conv fws cl vpc → fw ∈ fws ∧ fw.Network = vpc := by
    intro fws cl vpc fw h
    unfold FirewallRulesToDelete at h
    rw [List.mem_filter] at h
    refine ⟨h.1, ?_⟩
    have h2 := h.2
    simp only [Bool.and_eq_true, decide_eq_true_eq] at h2
    exact h2.1.1
  refine ⟨key firewalls clusterName vpcName, ?_, ?_⟩
  · intro name h
    have hnet : ("other-vpc" : String) = "my-vpc" := (key firewalls clusterName "my-vpc" _ h).2
    exact absurd hnet (by decide)
  · intro fw h hname
    obtain ⟨hmem, hnet⟩ := key _ _ _ fw h
    simp only [testFirewallRules, List.mem_cons, List.mem_singleton, List.not_mem_nil,
      or_false] at hmem
    rcases hmem with rfl | rfl | rfl | rfl | rfl | rfl
    · revert hname; decide
    · revert hname; decide
    · revert hname; decide
    · revert hname; decide
    · revert hname; decide
    · revert hnet; decide

/-- Witness for claim C4: with names owned by prefix and two desired rules, the rules of
the test yield one deletion, on the target network. -/
theorem FirewallRulesToDelete_same_network_witness :
    FirewallRulesToDelete sampleManagedNames
        (testFirewallRules "shoot--foobar--gcp" "my-vpc" "other-vpc")
        "shoot--foobar--gcp" "my-vpc"
      = [⟨"shoot--foobar--gcpallow-external-access", "my-vpc"⟩]
    ∧ (⟨"shoot--foobar--gcpallow-external-access", "my-vpc"⟩ : Firewall).Network = "my-vpc" :=
  ⟨by decide,
   ((FirewallRulesToDelete_same_network sampleManagedNames
      (testFirewallRules "shoot--foobar--gcp" "my-vpc" "other-vpc")
      "shoot--foobar--gcp" "my-vpc").1 _ (by decide)).2⟩

end ProviderGcp
